import Mathlib

/-!
Verification of the generated-code validation and execution pipeline of the
smart_csv_assistant repository.

The development shallowly embeds the five core components:

* `calculate_quality_score` (src/components/results_display.py),
* `validate_execution_results` (src/utils/code_validator.py),
* `validate_code` (src/utils/code_validator.py),
* `execute_generated_code` (src/core/code_executor.py),
* `analyze_query_relevance` (src/utils/data_utils.py).

Python strings are modelled as Lean `String`/`List Char`; Python dicts as
insertion-ordered association lists; machine behaviour external to the
repository (the CPython `exec` of arbitrary generated code, `ast.parse`) is
modelled as explicit semantic parameters.
-/

namespace SmartCsv

/-! ### Python string helpers -/

/-- ASCII whitespace, as recognised by Python `str.split()`/`str.strip()` and by
the regex class \s on the ASCII range. -/
def isPySpace (c : Char) : Bool :=
  c = ' ' || c = '\t' || c = '\n' || c = '\r' || c = '\x0b' || c = '\x0c'

/-- Substring containment on character lists: `containsSub pat s` models the
Python expression `pat in s` on strings. -/
def containsSub (pat : List Char) : List Char → Bool
  | [] => pat.isEmpty
  | c :: cs => pat.isPrefixOf (c :: cs) || containsSub pat cs

/-- Python `sub in code` on `String`s. -/
def strIn (sub code : String) : Bool :=
  containsSub sub.toList code.toList

/-- Python `str.lower()` (ASCII case folding). -/
def lowerStr (s : String) : String :=
  String.mk (s.toList.map Char.toLower)

/-- Helper for `pySplit`: accumulates the current word (reversed). -/
def pySplitAux : List Char → List Char → List (List Char)
  | [], acc => if acc.isEmpty then [] else [acc.reverse]
  | c :: cs, acc =>
    if isPySpace c then
      if acc.isEmpty then pySplitAux cs [] else acc.reverse :: pySplitAux cs []
    else
      pySplitAux cs (c :: acc)

/-- Python `str.split()` with no argument: split on runs of whitespace,
discarding empty words. -/
def pySplit (l : List Char) : List (List Char) :=
  pySplitAux l []

/-- Fuel-indexed worker for `replaceAll` (structural recursion on the fuel so
that the kernel can evaluate it; each step strictly shortens the list, so fuel
equal to the list length never runs out). -/
def replaceAllFuel (pat repl : List Char) : Nat → List Char → List Char
  | _, [] => []
  | 0, l => l
  | fuel + 1, c :: cs =>
    if pat ≠ [] ∧ pat.isPrefixOf (c :: cs) then
      repl ++ replaceAllFuel pat repl fuel ((c :: cs).drop pat.length)
    else
      c :: replaceAllFuel pat repl fuel cs

/-- Python `str.replace(pat, repl)`: replace all non-overlapping occurrences of
`pat`, scanning left to right.  (The callers in the repository only use
non-empty patterns; an empty pattern is treated as no-op here.) -/
def replaceAll (pat repl : List Char) (l : List Char) : List Char :=
  replaceAllFuel pat repl l.length l

/-- Python `str.strip()`: remove leading and trailing whitespace. -/
def pyStrip (s : String) : String :=
  String.mk ((((s.toList.dropWhile isPySpace).reverse.dropWhile isPySpace).reverse))

/-- Size of the intersection of two Python sets of words:
`len(set(a).intersection(set(b)))`. -/
def setInterCard (a b : List (List Char)) : Nat :=
  (a.dedup.filter (fun w => b.contains w)).length

/-! ### Data model

Python runtime values are modelled by the attributes the repository actually
inspects. -/

/-- A Python scalar stored in the `metrics` dict: the validator only ever asks
whether a value `is None`; numbers and strings are carried for concreteness. -/
inductive PyVal
  | vnone
  | vint (n : ℤ)
  | vstr (s : String)
deriving DecidableEq

/-- The `metrics` artifact: a Python dict modelled as an insertion-ordered
association list. -/
abbrev Metrics := List (String × PyVal)

/-- A Python value bound to `result`.  The source inspects exactly three
attributes: whether it is a `pd.DataFrame` (with its row count `len(result)`
and column count `len(result.columns)`), else whether it has `__len__` (with
that length), else it is a plain scalar. -/
inductive ResultVal
  | df (rows cols : Nat)
  | sized (len : Nat)
  | scalar
deriving DecidableEq

/-- Python `len(result)` for values that support it, i.e. `hasattr(result, __len__)`. -/
def pyLen : ResultVal → Option Nat
  | .df rows _ => some rows
  | .sized n => some n
  | .scalar => none

/-! ### Quality Scorer — `calculate_quality_score` (src/components/results_display.py, lines 180-228) -/

/-- Metrics contribution: 30 points when at least 5 metrics, else 6 per metric;
nothing when the dict is falsy (empty). -/
def metricsPart (metrics : Metrics) : Nat :=
  if metrics.isEmpty then 0
  else if 5 ≤ metrics.length then 30
  else metrics.length * 6

/-- Number of insights whose text contains at least one decimal digit:
`sum(1 for insight in insights if any(char.isdigit() for char in str(insight)))`. -/
def insightsWithNumbers (insights : List String) : Nat :=
  insights.countP (fun s => s.toList.any Char.isDigit)

/-- Insights contribution: count part (20 when at least 5 insights, else 4 per
insight) plus digit bonus `min(10, insights_with_numbers * 2)`; nothing when
the list is falsy (empty). -/
def insightsPart (insights : List String) : Nat :=
  if insights.isEmpty then 0
  else
    (if 5 ≤ insights.length then 20 else insights.length * 4)
      + min 10 (insightsWithNumbers insights * 2)

/-- Summary contribution: 20 points when the length reaches 100, else
`len(summary_text) / 5` with Python true division (a rational value); nothing
when the string is falsy (empty). -/
def summaryPart (summary_text : String) : ℚ :=
  if summary_text.isEmpty then 0
  else if 100 ≤ summary_text.length then 20
  else (summary_text.length : ℚ) / 5

/-- Result contribution: the source branches on `isinstance(result, pd.DataFrame)`
first; a non-DataFrame present result earns the flat 10 whether or not it is
sized. -/
def resultPart : Option ResultVal → Nat
  | none => 0
  | some (.df rows cols) =>
    if 0 < rows then 15 + (if 1 < cols then 5 else 0) else 5
  | some (.sized _) => 10
  | some .scalar => 10

/-- Quality score, source lines 180-228: accumulate the four contributions (the
summary one may be fractional), then `min(100, int(score))`.  The accumulated
score is non-negative, so Python `int` truncation is the floor.  Python
computes `len(summary_text) / 5` in binary floating point; the rounding error
(below 2⁻⁴⁵ here) never moves the sum across an integer because the exact
fractional part is a multiple of 1/5, so the exact rational value is faithful. -/
def calculate_quality_score (metrics : Metrics) (insights : List String)
    (summary_text : String) (result : Option ResultVal) : ℤ :=
  let score : ℚ :=
    (metricsPart metrics : ℚ) + (insightsPart insights : ℚ)
      + summaryPart summary_text + (resultPart result : ℚ)
  min 100 ⌊score⌋

/-- Floor of the summary contribution, as a natural number. -/
def summaryFloorNat (summary_text : String) : Nat :=
  if summary_text.isEmpty then 0
  else if 100 ≤ summary_text.length then 20
  else summary_text.length / 5

/-- Computable restatement of `calculate_quality_score` over ℕ (proved equal in
`calculate_quality_score_eq`): the summary part is the only fractional summand,
so flooring the total floors just that part. -/
def qualityScoreNat (metrics : Metrics) (insights : List String)
    (summary_text : String) (result : Option ResultVal) : Nat :=
  min 100
    (metricsPart metrics + insightsPart insights + summaryFloorNat summary_text
      + resultPart result)

/-! ### Result Contract Validator — `validate_execution_results` (src/utils/code_validator.py, lines 155-211) -/

/-- Summary hard condition of the source:
`not summary_text or summary_text.strip() == ""`. -/
def summaryBlank (summary_text : String) : Bool :=
  summary_text.isEmpty || pyStrip summary_text == ""

/-- Post-execution contract check, source lines 155-211.  `is_valid` starts
`True` and is set `False` by exactly the four hard branches (result `None`,
empty metrics, blank summary, empty insights); the issue strings accumulate in
source order. -/
def validate_execution_results (result : Option ResultVal) (metrics : Metrics)
    (summary_text : String) (insights : List String) : Bool × List String :=
  let resultIssues : List String :=
    match result with
    | none => ["❌ Result is None"]
    | some r =>
      if pyLen r = some 0 then
        ["⚠️ Result is empty - query may have found no matching data"]
      else []
  let metricsIssues : List String :=
    if metrics.isEmpty then ["❌ Metrics dictionary is empty"]
    else if metrics.length < 5 then
      ["⚠️ Only " ++ toString metrics.length
        ++ " metrics provided, recommended minimum is 5"]
    else []
  let none_metrics := (metrics.filter (fun p => p.2 = PyVal.vnone)).map Prod.fst
  let noneIssues : List String :=
    if !metrics.isEmpty && !none_metrics.isEmpty then
      ["⚠️ Metrics contain None values: " ++ String.intercalate ", " none_metrics]
    else []
  let summaryIssues : List String :=
    if summaryBlank summary_text then ["❌ Summary text is empty"]
    else if summary_text.length < 50 then
      ["⚠️ Summary text is very short (less than 50 characters)"]
    else []
  let insightsIssues : List String :=
    if insights.isEmpty then ["❌ Insights list is empty"]
    else if insights.length < 5 then
      ["⚠️ Only " ++ toString insights.length
        ++ " insights provided, recommended minimum is 5"]
    else []
  let digitIssues : List String :=
    if !insights.isEmpty
        && decide (insightsWithNumbers insights * 10 < insights.length * 6) then
      ["⚠️ Many insights lack specific numbers - they should include concrete data"]
    else []
  let is_valid : Bool :=
    !(decide (result = none) || metrics.isEmpty || summaryBlank summary_text
        || insights.isEmpty)
  (is_valid,
    resultIssues ++ metricsIssues ++ noneIssues ++ summaryIssues
      ++ insightsIssues ++ digitIssues)

/-! ### Static Validator — `validate_code` (src/utils/code_validator.py, lines 10-152)

The source calls `ast.parse` (the CPython parser, external to the repository);
its outcome is passed in explicitly as a `ParseOutcome`.  The handful of
`re.search` calls are hand-compiled below: each pattern consists of literal
pieces and character classes that are disjoint from the following literal, so
the greedy match at a position is deterministic and `re.search` is a scan for
the leftmost matching position. -/

/-- Outcome of `ast.parse(code)`: success, a `SyntaxError` with message, or any
other exception with message. -/
inductive ParseOutcome
  | ok
  | syntaxError (msg : String)
  | otherError (msg : String)
deriving DecidableEq

/-- Left brace character (written via its code point). -/
def lbrace : Char := Char.ofNat 123

/-- Right brace character. -/
def rbrace : Char := Char.ofNat 125

/-- Single-quote character. -/
def squote : Char := Char.ofNat 39

/-- Double-quote character. -/
def dquote : Char := Char.ofNat 34

/-- Word characters of the regex class \w (ASCII range). -/
def isWordChar (c : Char) : Bool :=
  c.isAlphanum || c = '_'

/-- Match of the regex `VAR\s*=` at the head of `s` (the part after the word
boundary). -/
def matchAssignAt (var : List Char) (s : List Char) : Bool :=
  var.isPrefixOf s &&
    (match (s.drop var.length).dropWhile isPySpace with
     | '=' :: _ => true
     | _ => false)

/-- Scan for the regex `\bVAR\s*=`; `boundary` records whether a word boundary
precedes the current position (the previous character was not a word
character, or we are at the start). -/
def assignSearchAux (var : List Char) : List Char → Bool → Bool
  | [], _ => false
  | c :: cs, boundary =>
    (boundary && matchAssignAt var (c :: cs)) ||
      assignSearchAux var cs (!isWordChar c)

/-- Python `re.search` of the pattern \bVAR\s*= as a Boolean, for the required
output variables (source line 79). -/
def wordAssignSearch (var : List Char) (code : List Char) : Bool :=
  assignSearchAux var code true

/-- Match of `NAME\s*=\s*OPEN([^CLOSE]+)CLOSE` at the head of `s`, returning the
bracketed group. -/
def literalGroupAt (name : List Char) (openC closeC : Char) (s : List Char) :
    Option (List Char) :=
  if name.isPrefixOf s then
    match (s.drop name.length).dropWhile isPySpace with
    | '=' :: r2 =>
      match r2.dropWhile isPySpace with
      | c :: r4 =>
        if c = openC then
          let body := r4.takeWhile (fun d => d ≠ closeC)
          if body.isEmpty then none
          else
            match r4.drop body.length with
            | d :: _ => if d = closeC then some body else none
            | [] => none
        else none
      | [] => none
    | _ => none
  else none

/-- Leftmost `re.search` of `NAME\s*=\s*OPEN([^CLOSE]+)CLOSE` (with `re.DOTALL`,
which only affects `.` and so is irrelevant here). -/
def literalGroupSearch (name : List Char) (openC closeC : Char) :
    List Char → Option (List Char)
  | [] => none
  | c :: cs =>
    match literalGroupAt name openC closeC (c :: cs) with
    | some body => some body
    | none => literalGroupSearch name openC closeC cs

/-- Consume the regex piece `\([^)]+\)` at the head of `s`, returning the rest. -/
def parensGroup : List Char → Option (List Char)
  | [] => none
  | c :: r1 =>
    if c = '(' then
      let body := r1.takeWhile (fun d => d ≠ ')')
      if body.isEmpty then none
      else
        match r1.drop body.length with
        | d :: r2 => if d = ')' then some r2 else none
        | [] => none
    else none

/-- Match of `\([^)]+\)\s*[&|]\s*\([^)]+\)` at the head of `s`. -/
def matchBoolParenAt (s : List Char) : Bool :=
  match parensGroup s with
  | none => false
  | some r2 =>
    match (r2.dropWhile isPySpace) with
    | [] => false
    | c :: r4 =>
      (c = '&' || c = '|') &&
        (parensGroup (r4.dropWhile isPySpace)).isSome

/-- Python `re.search` of the pattern \([^)]+\)\s*[&|]\s*\([^)]+\) as a Boolean
(source line 115). -/
def boolParenSearch : List Char → Bool
  | [] => false
  | c :: cs => matchBoolParenAt (c :: cs) || boolParenSearch cs

/-- Match of `\[\d+\]` at the head of `s`. -/
def matchBracketDigitsAt : List Char → Bool
  | [] => false
  | c :: r1 =>
    c = '[' &&
      (let ds := r1.takeWhile Char.isDigit
       !ds.isEmpty &&
         (match r1.drop ds.length with
          | d :: _ => d = ']'
          | [] => false))

/-- Python `re.search` of the pattern \[\d+\] as a Boolean (source line 142). -/
def bracketDigitsSearch : List Char → Bool
  | [] => false
  | c :: cs => matchBracketDigitsAt (c :: cs) || bracketDigitsSearch cs

/-- The fixed denylist of modules and dynamic-execution primitives, source
line 29. -/
def dangerous_imports : List String :=
  ["os", "sys", "subprocess", "eval", "exec", "compile", "__import__"]

/-- The four contractually required output identifiers, source line 74. -/
def required_vars : List String :=
  ["result", "metrics", "summary_text", "insights"]

/-- Static validation of generated code, source lines 10-152.  Hard issues and
soft warnings accumulate in two lists in source order and are returned
concatenated (`issues + warnings`). -/
def validate_code (code : String) (available_dfs : List String)
    (parse : ParseOutcome) : List String :=
  let issuesSecurity : List String :=
    dangerous_imports.filterMap (fun imp =>
      if strIn ("import " ++ imp) code || strIn ("from " ++ imp) code then
        some ("🚫 SECURITY: Code tries to import \x27" ++ imp
          ++ "\x27 (not allowed)")
      else none)
  let issuesOpenai : List String :=
    if strIn "import openai" code || strIn "from openai" code then
      ["🚫 Code tries to import openai (not allowed)"]
    else []
  let issuesFile : List String :=
    if strIn "open(" code || strIn "write(" code || strIn "read(" code then
      ["🚫 SECURITY: Code tries to perform file operations (not allowed)"]
    else []
  let issuesNet : List String :=
    if strIn "requests." code || strIn "urllib" code || strIn "socket" code then
      ["🚫 SECURITY: Code tries to make network requests (not allowed)"]
    else []
  let uses_any_df := available_dfs.any (fun d => strIn d code)
  let issuesUsage : List String :=
    if !uses_any_df then
      ["⚠️ CRITICAL: Code doesn\x27t use any of the available dataframes"]
    else []
  let used_dfs := available_dfs.filter (fun d => strIn d code)
  let unused_dfs := available_dfs.filter (fun d => !strIn d code)
  let warnUsed : List String :=
    if !used_dfs.isEmpty then
      ["ℹ️ Using dataframes: " ++ String.intercalate ", " used_dfs]
    else []
  let warnUnused : List String :=
    if !unused_dfs.isEmpty && 0 < used_dfs.length then
      ["ℹ️ Not using: " ++ String.intercalate ", " unused_dfs
        ++ " (this might be intentional based on the query)"]
    else []
  let missing_vars :=
    required_vars.filter (fun v => !wordAssignSearch v.toList code.toList)
  let issuesMissing : List String :=
    if !missing_vars.isEmpty then
      ["⚠️ CRITICAL: Missing required output variables: "
        ++ String.intercalate ", " missing_vars]
    else []
  let warnMetrics : List String :=
    if strIn "metrics" code
        && strIn ("metrics = " ++ String.mk [lbrace]) code then
      match literalGroupSearch "metrics".toList lbrace rbrace code.toList with
      | some content =>
        let metric_count := content.count ':'
        if metric_count < 5 then
          ["⚠️ QUALITY: Only " ++ toString metric_count
            ++ " metrics found, recommend at least 5 for comprehensive analysis"]
        else []
      | none => []
    else []
  let warnInsights : List String :=
    if strIn "insights" code && strIn "insights = [" code then
      match literalGroupSearch "insights".toList '[' ']' code.toList with
      | some content =>
        let insight_count := content.count dquote / 2 + content.count squote / 2
        if insight_count < 5 then
          ["⚠️ QUALITY: Only " ++ toString insight_count
            ++ " insights found, recommend at least 5 for thorough analysis"]
        else []
      | none => []
    else []
  let warnNa : List String :=
    if strIn ".str." code && !strIn "na=False" code then
      ["⚠️ WARNING: String operations found but \x27na=False\x27 not used - may cause issues with null values"]
    else []
  let warnBool : List String :=
    if (strIn "&" code || strIn "|" code) && !boolParenSearch code.toList then
      ["⚠️ WARNING: Boolean operations found but conditions may not be properly parenthesized"]
    else []
  let warnDiv : List String :=
    if strIn "/" code && !strIn "if " (lowerStr code) then
      ["ℹ️ NOTE: Division operations found - ensure zero-division is handled"]
    else []
  let warnIloc : List String :=
    if (strIn ".iloc[0]" code || strIn ".loc[0]" code)
        && !strIn "if len(" code then
      ["⚠️ WARNING: Direct indexing found without checking if data exists - may fail on empty results"]
    else []
  let issuesSyntax : List String :=
    match parse with
    | .syntaxError msg => ["🚫 SYNTAX ERROR: " ++ msg]
    | _ => []
  let warnParse : List String :=
    match parse with
    | .otherError msg => ["⚠️ Could not parse code: " ++ msg]
    | _ => []
  let warnHardcode : List String :=
    if bracketDigitsSearch code.toList && !strIn "len(" code then
      ["ℹ️ NOTE: Hardcoded indices found - ensure they\x27re within bounds"]
    else []
  let warnQuotes : List String :=
    if !strIn ("df[" ++ String.mk [squote]) code
        && !strIn ("df[" ++ String.mk [dquote]) code
        && available_dfs.any (fun d => strIn d code) then
      ["ℹ️ NOTE: Ensure column names are accessed with quotes: df[\x27column_name\x27]"]
    else []
  (issuesSecurity ++ issuesOpenai ++ issuesFile ++ issuesNet ++ issuesUsage
      ++ issuesMissing ++ issuesSyntax)
    ++ (warnUsed ++ warnUnused ++ warnMetrics ++ warnInsights ++ warnNa
      ++ warnBool ++ warnDiv ++ warnIloc ++ warnParse ++ warnHardcode
      ++ warnQuotes)

/-! ### Relevance Selector — `analyze_query_relevance` (src/utils/data_utils.py, lines 196-265) -/

/-- A dataframe column as seen by the Relevance Selector: its name and whether
the numeric-dtype selection `select_dtypes` (source line 250) would keep it. -/
structure Column where
  name : String
  numeric : Bool
deriving DecidableEq

/-- A loaded dataframe, abstracted to the attributes `analyze_query_relevance`
reads: its ordered column list. -/
structure DataFrame where
  cols : List Column
deriving DecidableEq

/-- The fixed keyword-synonym table, source lines 234-241. -/
def keywords_map : List (String × List String) :=
  [("country", ["country", "nation", "destination", "origin"]),
   ("product", ["product", "item", "commodity", "goods", "hs", "classification"]),
   ("value", ["value", "amount", "price", "fob", "cost", "total"]),
   ("date", ["date", "time", "year", "month", "period"]),
   ("quantity", ["quantity", "volume", "weight", "units"]),
   ("enterprise", ["enterprise", "company", "business", "firm", "exporter", "importer"])]

/-- Per-column score accumulation, source lines 221-246: +50 for an exact
lowercased column-name substring match, +10 per shared whitespace token, and
+20 per keyword-map entry hit by both the query and the column name. -/
def colScore (queryLower : List Char) (queryWords : List (List Char))
    (col : Column) : Nat :=
  let colLower := col.name.toList.map Char.toLower
  let colWords := pySplit (replaceAll ['_'] [' '] colLower)
  (if containsSub colLower queryLower then 50 else 0)
    + 10 * setInterCard queryWords colWords
    + 20 * (keywords_map.countP (fun kv =>
        kv.2.any (fun syn => containsSub syn.toList queryLower)
          && kv.2.any (fun syn => containsSub syn.toList colLower)))

/-- Relevance score of one dataframe for a query, source lines 213-253: +100
when the cleaned dataframe name occurs in the query, plus the per-column
scores, plus 5 per numeric column when the query contains an aggregation verb. -/
def relevanceScore (query : String) (df_name : String) (df : DataFrame) : Nat :=
  let queryLower := query.toList.map Char.toLower
  let queryWords := pySplit queryLower
  let cleanName :=
    (replaceAll "_".toList " ".toList
      (replaceAll "df_".toList [] df_name.toList)).map Char.toLower
  (if containsSub cleanName queryLower then 100 else 0)
    + (df.cols.map (colScore queryLower queryWords)).sum
    + (if containsSub "total".toList queryLower
          || containsSub "sum".toList queryLower
          || containsSub "calculate".toList queryLower then
        5 * df.cols.countP (fun c => c.numeric)
      else 0)

/-- The insertion-ordered `(name, score)` list built by the scoring loop
(`relevance_scores.items()`). -/
def relevanceScores (query : String) (tables : List (String × DataFrame)) :
    List (String × Nat) :=
  tables.map (fun p => (p.1, relevanceScore query p.1 p.2))

/-- Descending-score comparison used by
`sorted(relevance_scores.items(), key=lambda x: x[1], reverse=True)`. -/
def scoreGe (a b : String × Nat) : Prop :=
  b.2 ≤ a.2

instance : DecidableRel scoreGe :=
  fun a b => inferInstanceAs (Decidable (b.2 ≤ a.2))

instance : IsTotal (String × Nat) scoreGe :=
  ⟨fun a b => Nat.le_total b.2 a.2⟩

instance : IsTrans (String × Nat) scoreGe :=
  ⟨fun _ _ _ hab hbc => le_trans hbc hab⟩

/-- Relevance selection, source lines 196-265.  CPython `sorted` with
`reverse=True` is a stable descending sort, modelled by `List.insertionSort`
with the reflexive descending comparison `scoreGe` (equal scores keep their
original relative order).  Names with positive score are returned best-first;
if none scored, all names are returned in insertion order (fail-open). -/
def analyze_query_relevance (query : String)
    (dataframes_dict : List (String × DataFrame)) : List String :=
  let sorted_dfs := List.insertionSort scoreGe (relevanceScores query dataframes_dict)
  let relevant_dfs := (sorted_dfs.filter (fun p => 0 < p.2)).map Prod.fst
  if relevant_dfs.isEmpty then dataframes_dict.map Prod.fst else relevant_dfs

/-! ### Sandboxed Executor — `execute_generated_code` (src/core/code_executor.py, lines 11-68)

The call `exec(code, globals, local_vars)` runs arbitrary untrusted Python and
is external machine behaviour; it is modelled by an explicit semantic
parameter `pyExec` mapping the code string and the table set to either a
raised exception or a final namespace plus the text written to the redirected
standard output.  `sys.stdout` is a single process-wide cell, modelled by
`SysState`; the executor never inspects the tables, so they are modelled by a type
parameter. -/

/-- A raised Python exception, identified by its type and message (the source
re-raises the same object: `raise e`). -/
structure PyExc where
  ty : String
  msg : String
deriving DecidableEq

/-- The bindings of the four contract identifiers in `local_vars` after a
successful `exec`: `none` means the identifier was never assigned (so
`local_vars.get(name, default)` falls back to the default). -/
structure PyNamespace where
  vresult : Option (Option ResultVal)
  vmetrics : Option Metrics
  vsummary : Option String
  vinsights : Option (List String)
deriving DecidableEq

/-- The dictionary returned by `execute_generated_code` on success, source
lines 53-61. -/
structure ExecResult where
  result : Option ResultVal
  metrics : Metrics
  summary_text : String
  insights : List String
  output_text : String
  is_valid : Bool
  validation_issues : List String
deriving DecidableEq

/-- The process-wide interpreter state the executor mutates: the value of
`sys.stdout`. -/
structure SysState (σ : Type) where
  stdout : σ
deriving DecidableEq

/-- Sandboxed execution, source lines 11-68.  Saves `sys.stdout`, points it at
a fresh capture buffer, runs the code; on an exception the stream is restored
(both in the `except` branch and in `finally`) and the same exception is
re-raised; on success the stream is restored, the four artifacts are read back
with their defaults, validated, and returned with the captured output text. -/
def execute_generated_code {σ τ : Type}
    (pyExec : String → List (String × τ) → Except PyExc (PyNamespace × String))
    (captureBuffer : σ) (code : String) (dataframes_dict : List (String × τ))
    (s : SysState σ) : SysState σ × Except PyExc ExecResult :=
  let old_stdout := s.stdout
  let _s1 : SysState σ := { stdout := captureBuffer }
  match pyExec code dataframes_dict with
  | .error e => ({ stdout := old_stdout }, .error e)
  | .ok (ns, output_text) =>
    let result := ns.vresult.getD none
    let metrics := ns.vmetrics.getD []
    let summary_text := ns.vsummary.getD ""
    let insights := ns.vinsights.getD []
    let vr := validate_execution_results result metrics summary_text insights
    ({ stdout := old_stdout },
     .ok { result := result, metrics := metrics, summary_text := summary_text,
           insights := insights, output_text := output_text,
           is_valid := vr.1, validation_issues := vr.2 })

theorem floor_summaryPart (s : String) :
    ⌊summaryPart s⌋ = (summaryFloorNat s : ℤ) := by
  unfold summaryPart summaryFloorNat
  split_ifs
  · simp
  · simp
  · rw [show ((5 : ℚ)) = ((5 : ℕ) : ℚ) by norm_num,
      Rat.floor_natCast_div_natCast]
    omega

theorem calculate_quality_score_eq (m : Metrics) (i : List String) (s : String)
    (r : Option ResultVal) :
    calculate_quality_score m i s r = (qualityScoreNat m i s r : ℤ) := by
  unfold calculate_quality_score qualityScoreNat
  dsimp only
  have h1 : (metricsPart m : ℚ) + (insightsPart i : ℚ) + summaryPart s
      + (resultPart r : ℚ)
      = summaryPart s + ((metricsPart m + insightsPart i + resultPart r : ℕ) : ℚ) := by
    push_cast
    ring
  rw [h1, Int.floor_add_nat, floor_summaryPart]
  push_cast
  omega

theorem metricsPart_le (m : Metrics) : metricsPart m ≤ 30 := by
  unfold metricsPart
  split_ifs <;> omega

theorem insightsPart_le (i : List String) : insightsPart i ≤ 30 := by
  unfold insightsPart
  split_ifs <;> omega

theorem summaryFloorNat_le (s : String) : summaryFloorNat s ≤ 20 := by
  unfold summaryFloorNat
  split_ifs <;> omega

theorem resultPart_le (r : Option ResultVal) : resultPart r ≤ 20 := by
  rcases r with _ | (⟨rows, cols⟩ | len | _) <;> simp only [resultPart] <;>
    try split_ifs
  all_goals omega

theorem qualityScoreNat_eq_sum (m : Metrics) (i : List String) (s : String)
    (r : Option ResultVal) :
    qualityScoreNat m i s r
      = metricsPart m + insightsPart i + summaryFloorNat s + resultPart r := by
  have h1 := metricsPart_le m
  have h2 := insightsPart_le i
  have h3 := summaryFloorNat_le s
  have h4 := resultPart_le r
  unfold qualityScoreNat
  omega

theorem metricsPart_le_append (m : Metrics) (x : String × PyVal) :
    metricsPart m ≤ metricsPart (m ++ [x]) := by
  unfold metricsPart
  rcases m with _ | ⟨y, ys⟩
  · simp
  · simp only [List.isEmpty_cons, List.cons_append, List.length_cons,
      List.length_append, List.length_singleton]
    split_ifs <;> omega

theorem insightsPart_le_append (i : List String) (t : String) :
    insightsPart i ≤ insightsPart (i ++ [t]) := by
  unfold insightsPart insightsWithNumbers
  rcases i with _ | ⟨y, ys⟩
  · simp
  · simp only [List.isEmpty_cons, List.cons_append, List.length_cons,
      List.length_append, List.length_singleton, List.countP_append,
      List.countP_cons, List.countP_nil]
    split_ifs <;> simp <;> omega

/-- C3 (counterexample): the claim gives an empty-but-present sized result a
flat 5; the code branches on `isinstance(result, pd.DataFrame)` first, so an
empty non-DataFrame sized value (for example an empty list bound to `result`)
earns the flat non-DataFrame 10.  With the other three artifacts empty the
whole score equals the result contribution: the code yields 10 where the claim
predicts 5. -/
theorem result_contribution_counterexample :
    calculate_quality_score [] [] "" (some (ResultVal.sized 0)) = 10
    ∧ calculate_quality_score [] [] "" none = 0 := by
  constructor <;> (rw [calculate_quality_score_eq]; decide)

/-- C3 (amended): for every combination of the other three artifacts, the
result contribution of the Quality Scorer is: 15 plus a 5 bonus for more than
one column for a non-empty DataFrame, flat 5 for an empty-but-present
DataFrame, flat 10 for any other present result (sized or scalar), and 0 when
absent. -/
theorem result_contribution (m : Metrics) (i : List String) (s : String) :
    (∀ rows cols : Nat, 0 < rows →
      calculate_quality_score m i s (some (ResultVal.df rows cols))
        = calculate_quality_score m i s none
            + (15 + if 1 < cols then 5 else 0))
    ∧ (∀ cols : Nat,
      calculate_quality_score m i s (some (ResultVal.df 0 cols))
        = calculate_quality_score m i s none + 5)
    ∧ (∀ len : Nat,
      calculate_quality_score m i s (some (ResultVal.sized len))
        = calculate_quality_score m i s none + 10)
    ∧ calculate_quality_score m i s (some ResultVal.scalar)
        = calculate_quality_score m i s none + 10 := by
  refine ⟨fun rows cols hrows => ?_, fun cols => ?_, fun len => ?_, ?_⟩ <;>
    simp only [calculate_quality_score_eq, qualityScoreNat_eq_sum, resultPart] <;>
    try split_ifs
  all_goals omega

theorem result_contribution_witness :
    (0 : Nat) < 1
    ∧ calculate_quality_score [] [] "" (some (ResultVal.df 1 2))
        = calculate_quality_score [] [] "" none + (15 + if 1 < 2 then 5 else 0) :=
  ⟨by decide, (result_contribution [] [] "").1 1 2 (by decide)⟩

/-- C4: a metrics mapping with exactly 5 entries (all non-null) contributes
exactly 30 to the Quality Score, one with 4 entries contributes 24, the empty
mapping contributes 0, and the Result Contract Validator marks the empty
mapping invalid whatever the other artifacts are. -/
theorem metrics_contribution (m : Metrics) (i : List String) (s : String)
    (r : Option ResultVal) :
    (m.length = 5 → (∀ p ∈ m, p.2 ≠ PyVal.vnone) →
      metricsPart m = 30
      ∧ calculate_quality_score m i s r = calculate_quality_score [] i s r + 30)
    ∧ (m.length = 4 →
      metricsPart m = 24
      ∧ calculate_quality_score m i s r = calculate_quality_score [] i s r + 24)
    ∧ metricsPart ([] : Metrics) = 0
    ∧ (validate_execution_results r [] s i).1 = false := by
  refine ⟨fun h5 _ => ⟨?_, ?_⟩, fun h4 => ⟨?_, ?_⟩, rfl, ?_⟩
  · unfold metricsPart
    have : m.isEmpty = false := by
      cases m
      · simp at h5
      · rfl
    simp [this, h5]
  · simp only [calculate_quality_score_eq, qualityScoreNat_eq_sum]
    unfold metricsPart
    have : m.isEmpty = false := by
      cases m
      · simp at h5
      · rfl
    simp [this, h5]
    omega
  · unfold metricsPart
    have : m.isEmpty = false := by
      cases m
      · simp at h4
      · rfl
    simp [this, h4]
  · simp only [calculate_quality_score_eq, qualityScoreNat_eq_sum]
    unfold metricsPart
    have : m.isEmpty = false := by
      cases m
      · simp at h4
      · rfl
    simp [this, h4]
    omega
  · simp [validate_execution_results]

theorem metrics_contribution_witness :
    (([("a", PyVal.vint 1), ("b", PyVal.vint 2), ("c", PyVal.vint 3),
        ("d", PyVal.vint 4), ("e", PyVal.vint 5)] : Metrics).length = 5
      ∧ metricsPart [("a", PyVal.vint 1), ("b", PyVal.vint 2), ("c", PyVal.vint 3),
          ("d", PyVal.vint 4), ("e", PyVal.vint 5)] = 30)
    ∧ (([("a", PyVal.vint 1), ("b", PyVal.vint 2), ("c", PyVal.vint 3),
        ("d", PyVal.vint 4)] : Metrics).length = 4
      ∧ metricsPart [("a", PyVal.vint 1), ("b", PyVal.vint 2), ("c", PyVal.vint 3),
          ("d", PyVal.vint 4)] = 24)
    ∧ (validate_execution_results none [] "" []).1 = false :=
  ⟨⟨by decide,
    ((metrics_contribution [("a", PyVal.vint 1), ("b", PyVal.vint 2),
        ("c", PyVal.vint 3), ("d", PyVal.vint 4), ("e", PyVal.vint 5)] [] "" none).1
      (by decide) (by decide)).1⟩,
   ⟨by decide,
    ((metrics_contribution [("a", PyVal.vint 1), ("b", PyVal.vint 2),
        ("c", PyVal.vint 3), ("d", PyVal.vint 4)] [] "" none).2.1 (by decide)).1⟩,
   (metrics_contribution [] [] "" none).2.2.2⟩

/-- C5: with 5 metrics, 5 insights each containing a digit, a 120-character
summary and a non-empty two-column DataFrame result, the Quality Score is
exactly 100 (the four contributions are 30, 30, 20 and 20). -/
theorem quality_score_scenario (m : Metrics) (i : List String) (s : String)
    (rows : Nat) (hm : m.length = 5) (hi : i.length = 5)
    (hdig : ∀ t ∈ i, t.toList.any Char.isDigit = true)
    (hs : s.length = 120) (hrows : 0 < rows) :
    calculate_quality_score m i s (some (ResultVal.df rows 2)) = 100 := by
  simp only [calculate_quality_score_eq, qualityScoreNat_eq_sum]
  have h1 : metricsPart m = 30 := by
    unfold metricsPart
    have : m.isEmpty = false := by
      cases m
      · simp at hm
      · rfl
    simp [this, hm]
  have h2 : insightsPart i = 30 := by
    unfold insightsPart
    have he : i.isEmpty = false := by
      cases i
      · simp at hi
      · rfl
    have hw : insightsWithNumbers i = 5 := by
      unfold insightsWithNumbers
      rw [← hi]
      exact List.countP_eq_length.mpr hdig
    simp [he, hi, hw]
  have h3 : summaryFloorNat s = 20 := by
    unfold summaryFloorNat
    have hne : s ≠ "" := by
      intro h'
      rw [h'] at hs
      simp at hs
    have : s.isEmpty = false := by
      cases h' : s.isEmpty
      · rfl
      · exact absurd ((String.isEmpty_iff _).mp h') hne
    simp [this, hs]
  have h4 : resultPart (some (ResultVal.df rows 2)) = 20 := by
    simp [resultPart, hrows]
  rw [h1, h2, h3, h4]
  decide

set_option maxRecDepth 4096 in
theorem quality_score_scenario_witness :
    calculate_quality_score
      [("a", PyVal.vint 1), ("b", PyVal.vint 2), ("c", PyVal.vint 3),
       ("d", PyVal.vint 4), ("e", PyVal.vint 5)]
      ["i 1", "i 2", "i 3", "i 4", "i 5"]
      (String.mk (List.replicate 120 'a')) (some (ResultVal.df 3 2)) = 100 :=
  quality_score_scenario _ _ _ _ (by decide) (by decide) (by decide) (by decide)
    (by decide)

/-- C10: the Quality Scorer is monotone in artifact richness: appending an
entry to the metrics mapping, or appending a string to the insights list,
never decreases the score (for any fixed values of the other artifacts). -/
theorem quality_score_monotone (m : Metrics) (i : List String) (s : String)
    (r : Option ResultVal) (k : String) (v : PyVal) (t : String) :
    calculate_quality_score m i s r ≤ calculate_quality_score (m ++ [(k, v)]) i s r
    ∧ calculate_quality_score m i s r ≤ calculate_quality_score m (i ++ [t]) s r := by
  have h1 := metricsPart_le_append m (k, v)
  have h2 := insightsPart_le_append i t
  constructor <;> simp only [calculate_quality_score_eq, qualityScoreNat_eq_sum] <;>
    push_cast <;> omega

/-- C6: `is_valid` is false exactly when a hard condition holds (absent result,
empty metrics mapping, empty or whitespace-only summary, empty insights list);
each soft condition only appends its issue string. -/
theorem validate_results_hard_soft (r : Option ResultVal) (m : Metrics)
    (s : String) (i : List String) :
    ((validate_execution_results r m s i).1 = false ↔
      (r = none ∨ m = [] ∨ (s = "" ∨ pyStrip s = "") ∨ i = []))
    ∧ (∀ rv, r = some rv → pyLen rv = some 0 →
        "⚠️ Result is empty - query may have found no matching data"
          ∈ (validate_execution_results r m s i).2)
    ∧ (m ≠ [] → m.length < 5 →
        ("⚠️ Only " ++ toString m.length
            ++ " metrics provided, recommended minimum is 5")
          ∈ (validate_execution_results r m s i).2)
    ∧ (m ≠ [] → (m.filter (fun p => p.2 = PyVal.vnone)) ≠ [] →
        ("⚠️ Metrics contain None values: " ++ String.intercalate ", "
            ((m.filter (fun p => p.2 = PyVal.vnone)).map Prod.fst))
          ∈ (validate_execution_results r m s i).2)
    ∧ (summaryBlank s = false → s.length < 50 →
        "⚠️ Summary text is very short (less than 50 characters)"
          ∈ (validate_execution_results r m s i).2)
    ∧ (i ≠ [] → i.length < 5 →
        ("⚠️ Only " ++ toString i.length
            ++ " insights provided, recommended minimum is 5")
          ∈ (validate_execution_results r m s i).2)
    ∧ (i ≠ [] → insightsWithNumbers i * 10 < i.length * 6 →
        "⚠️ Many insights lack specific numbers - they should include concrete data"
          ∈ (validate_execution_results r m s i).2) := by
  refine ⟨?_, ?_, ?_, ?_, ?_, ?_, ?_⟩
  · have hv : (validate_execution_results r m s i).1
        = !(decide (r = none) || m.isEmpty || summaryBlank s || i.isEmpty) := rfl
    rw [hv]
    simp only [Bool.not_eq_false', Bool.or_eq_true, decide_eq_true_eq,
      List.isEmpty_iff, summaryBlank, String.isEmpty_iff, beq_iff_eq, or_assoc]
  · intro rv hrv hlen
    subst hrv
    simp [validate_execution_results, hlen, List.mem_append]
  · intro h1 h2
    have h1' : m.isEmpty = false := by simpa [List.isEmpty_iff] using h1
    simp [validate_execution_results, h1', h2, List.mem_append]
  · intro h1 h2
    have h1' : m.isEmpty = false := by simpa [List.isEmpty_iff] using h1
    have h2' : ((m.filter (fun p => p.2 = PyVal.vnone)).map Prod.fst).isEmpty = false := by
      simpa [List.isEmpty_iff] using h2
    simp only [validate_execution_results, h1', h2', Bool.not_false,
      Bool.and_self, if_true, List.mem_append]
    simp [h2']
  · intro h1 h2
    simp [validate_execution_results, h1, h2, List.mem_append]
  · intro h1 h2
    have h1' : i.isEmpty = false := by simpa [List.isEmpty_iff] using h1
    simp [validate_execution_results, h1', h2, List.mem_append]
  · intro h1 h2
    have h1' : i.isEmpty = false := by simpa [List.isEmpty_iff] using h1
    simp [validate_execution_results, h1', h2, List.mem_append]

theorem validate_results_hard_soft_witness :
    ((validate_execution_results (some (ResultVal.sized 0)) [("a", PyVal.vnone)]
        "hi" ["x"]).1 = false ↔
      ((some (ResultVal.sized 0) : Option ResultVal) = none
        ∨ ([("a", PyVal.vnone)] : Metrics) = []
        ∨ (("hi" : String) = "" ∨ pyStrip "hi" = "") ∨ (["x"] : List String) = []))
    ∧ "⚠️ Result is empty - query may have found no matching data"
        ∈ (validate_execution_results (some (ResultVal.sized 0)) [("a", PyVal.vnone)]
            "hi" ["x"]).2
    ∧ ("⚠️ Only " ++ toString ([("a", PyVal.vnone)] : Metrics).length
          ++ " metrics provided, recommended minimum is 5")
        ∈ (validate_execution_results (some (ResultVal.sized 0)) [("a", PyVal.vnone)]
            "hi" ["x"]).2
    ∧ ("⚠️ Metrics contain None values: " ++ String.intercalate ", "
          ((([("a", PyVal.vnone)] : Metrics).filter
            (fun p => p.2 = PyVal.vnone)).map Prod.fst))
        ∈ (validate_execution_results (some (ResultVal.sized 0)) [("a", PyVal.vnone)]
            "hi" ["x"]).2
    ∧ "⚠️ Summary text is very short (less than 50 characters)"
        ∈ (validate_execution_results (some (ResultVal.sized 0)) [("a", PyVal.vnone)]
            "hi" ["x"]).2
    ∧ ("⚠️ Only " ++ toString (["x"] : List String).length
          ++ " insights provided, recommended minimum is 5")
        ∈ (validate_execution_results (some (ResultVal.sized 0)) [("a", PyVal.vnone)]
            "hi" ["x"]).2
    ∧ "⚠️ Many insights lack specific numbers - they should include concrete data"
        ∈ (validate_execution_results (some (ResultVal.sized 0)) [("a", PyVal.vnone)]
            "hi" ["x"]).2 := by
  have h := validate_results_hard_soft (some (ResultVal.sized 0))
    [("a", PyVal.vnone)] "hi" ["x"]
  exact ⟨h.1,
    h.2.1 (ResultVal.sized 0) rfl (by decide),
    h.2.2.1 (by decide) (by decide),
    h.2.2.2.1 (by decide) (by decide),
    h.2.2.2.2.1 (by decide) (by decide),
    h.2.2.2.2.2.1 (by decide) (by decide),
    h.2.2.2.2.2.2 (by decide) (by decide)⟩

/-- C7: any code string containing a denylisted import token (`import X` or
`from X` for a denylisted module or dynamic-execution primitive) makes the
Static Validator return a non-empty issue list containing a security-tagged
message.  `validate_code` is a pure function into a list of strings: it
reports and never blocks execution (the execute action in app.py is gated by
the user, not by this list). -/
theorem validate_code_flags_dangerous_import (code : String) (dfs : List String)
    (parse : ParseOutcome) (imp : String) (h1 : imp ∈ dangerous_imports)
    (h2 : strIn ("import " ++ imp) code = true ∨ strIn ("from " ++ imp) code = true) :
    ∃ rest : String,
      ("🚫 SECURITY: " ++ rest) ∈ validate_code code dfs parse
      ∧ validate_code code dfs parse ≠ [] := by
  have hmem : ("🚫 SECURITY: Code tries to import \x27" ++ imp
      ++ "\x27 (not allowed)") ∈
      dangerous_imports.filterMap (fun im =>
        if strIn ("import " ++ im) code || strIn ("from " ++ im) code then
          some ("🚫 SECURITY: Code tries to import \x27" ++ im
            ++ "\x27 (not allowed)")
        else none) := by
    refine List.mem_filterMap.mpr ⟨imp, h1, ?_⟩
    have hcond : (strIn ("import " ++ imp) code
        || strIn ("from " ++ imp) code) = true := by
      rcases h2 with h | h <;> simp [h]
    rw [hcond]
    simp
  have hmem2 : ("🚫 SECURITY: Code tries to import \x27" ++ imp
      ++ "\x27 (not allowed)") ∈ validate_code code dfs parse := by
    simp only [validate_code]
    exact List.mem_append_left _ (List.mem_append_left _ (List.mem_append_left _
      (List.mem_append_left _ (List.mem_append_left _ (List.mem_append_left _
        (List.mem_append_left _ hmem))))))
  have heq : "🚫 SECURITY: " ++ ("Code tries to import \x27" ++ imp
      ++ "\x27 (not allowed)")
      = "🚫 SECURITY: Code tries to import \x27" ++ imp ++ "\x27 (not allowed)" := by
    rw [← String.append_assoc]
    rfl
  refine ⟨"Code tries to import \x27" ++ imp ++ "\x27 (not allowed)", ?_, ?_⟩
  · rw [heq]
    exact hmem2
  · exact List.ne_nil_of_mem hmem2

theorem validate_code_flags_dangerous_import_witness :
    ("os" ∈ dangerous_imports ∧ strIn ("import " ++ "os") "import os" = true)
    ∧ ∃ rest : String,
        ("🚫 SECURITY: " ++ rest) ∈ validate_code "import os" [] ParseOutcome.ok
        ∧ validate_code "import os" [] ParseOutcome.ok ≠ [] :=
  ⟨⟨by decide, by decide⟩,
   validate_code_flags_dangerous_import "import os" [] ParseOutcome.ok "os"
     (by decide) (Or.inl (by decide))⟩

/-- C8: a code string that fails to parse never makes `validate_code` raise:
the parse failure surfaces as a SYNTAX ERROR issue string in the returned list
(in the embedding the total function type records that every parse outcome,
including `SyntaxError`, returns normally). -/
theorem syntax_error_reported (code : String) (dfs : List String) (msg : String) :
    ("🚫 SYNTAX ERROR: " ++ msg)
      ∈ validate_code code dfs (ParseOutcome.syntaxError msg) := by
  simp [validate_code, List.mem_append]

/-- C1: when executing the generated code raises, the executor restores
`sys.stdout` to its saved original and re-raises the same exception; no result
dictionary is produced (the error branch carries no `ExecResult`). -/
theorem executor_error_path {σ τ : Type}
    (pyExec : String → List (String × τ) → Except PyExc (PyNamespace × String))
    (captureBuffer : σ) (code : String) (tables : List (String × τ))
    (s : SysState σ) (e : PyExc) (h : pyExec code tables = .error e) :
    (execute_generated_code pyExec captureBuffer code tables s).1.stdout = s.stdout
    ∧ (execute_generated_code pyExec captureBuffer code tables s).2
        = Except.error e := by
  refine ⟨?_, ?_⟩ <;> simp [execute_generated_code, h]

theorem executor_error_path_witness :
    ((fun (_ : String) (_ : List (String × Unit)) =>
        (Except.error ⟨"ZeroDivisionError", "division by zero"⟩ :
          Except PyExc (PyNamespace × String))) "result = 1/0" []
      = Except.error ⟨"ZeroDivisionError", "division by zero"⟩)
    ∧ (execute_generated_code
        (fun _ _ => Except.error ⟨"ZeroDivisionError", "division by zero"⟩)
        (1 : Nat) "result = 1/0" ([] : List (String × Unit))
        ⟨0⟩).1.stdout = (⟨0⟩ : SysState Nat).stdout
    ∧ (execute_generated_code
        (fun _ _ => Except.error ⟨"ZeroDivisionError", "division by zero"⟩)
        (1 : Nat) "result = 1/0" ([] : List (String × Unit)) ⟨0⟩).2
        = Except.error ⟨"ZeroDivisionError", "division by zero"⟩ := by
  refine ⟨rfl, ?_⟩
  exact executor_error_path (fun _ _ => Except.error
      ⟨"ZeroDivisionError", "division by zero"⟩)
    (1 : Nat) "result = 1/0" ([] : List (String × Unit)) ⟨0⟩
    ⟨"ZeroDivisionError", "division by zero"⟩ rfl

/-- C9: on a successful execution the executor reads the four artifacts back
from the namespace with their defaults (`result` absent, `metrics` empty,
`summary_text` empty, `insights` empty), attaches the captured output text and
the Result Contract Validator verdict and issue list, and restores the
output stream. -/
theorem executor_success_path {σ τ : Type}
    (pyExec : String → List (String × τ) → Except PyExc (PyNamespace × String))
    (captureBuffer : σ) (code : String) (tables : List (String × τ))
    (s : SysState σ) (ns : PyNamespace) (out : String)
    (h : pyExec code tables = .ok (ns, out)) :
    (execute_generated_code pyExec captureBuffer code tables s).1.stdout = s.stdout
    ∧ (execute_generated_code pyExec captureBuffer code tables s).2
        = Except.ok
            { result := ns.vresult.getD none
              metrics := ns.vmetrics.getD []
              summary_text := ns.vsummary.getD ""
              insights := ns.vinsights.getD []
              output_text := out
              is_valid := (validate_execution_results (ns.vresult.getD none)
                (ns.vmetrics.getD []) (ns.vsummary.getD "") (ns.vinsights.getD [])).1
              validation_issues := (validate_execution_results (ns.vresult.getD none)
                (ns.vmetrics.getD []) (ns.vsummary.getD "") (ns.vinsights.getD [])).2 } := by
  refine ⟨?_, ?_⟩ <;> simp [execute_generated_code, h]

theorem executor_success_path_witness :
    ((fun (_ : String) (_ : List (String × Unit)) =>
        (Except.ok (PyNamespace.mk none none none none, "done") :
          Except PyExc (PyNamespace × String))) "x = 1" []
      = Except.ok (PyNamespace.mk none none none none, "done"))
    ∧ (execute_generated_code
        (fun _ _ => Except.ok (PyNamespace.mk none none none none, "done"))
        (1 : Nat) "x = 1" ([] : List (String × Unit)) ⟨0⟩).1.stdout
        = (⟨0⟩ : SysState Nat).stdout
    ∧ (execute_generated_code
        (fun _ _ => Except.ok (PyNamespace.mk none none none none, "done"))
        (1 : Nat) "x = 1" ([] : List (String × Unit)) ⟨0⟩).2
        = Except.ok
            { result := none, metrics := [], summary_text := "", insights := []
              output_text := "done"
              is_valid := (validate_execution_results none [] "" []).1
              validation_issues := (validate_execution_results none [] "" []).2 } := by
  refine ⟨rfl, ?_⟩
  exact executor_success_path
    (fun _ _ => Except.ok (PyNamespace.mk none none none none, "done"))
    (1 : Nat) "x = 1" ([] : List (String × Unit)) ⟨0⟩
    (PyNamespace.mk none none none none) "done" rfl

theorem filter_score_insertionSort (l : List (String × Nat)) (n : Nat) :
    (List.insertionSort scoreGe l).filter (fun p => p.2 = n)
      = l.filter (fun p => p.2 = n) := by
  have hpair : (l.filter (fun p => p.2 = n)).Pairwise scoreGe := by
    refine List.pairwise_of_forall_mem_list ?_
    intro a ha b hb
    have ha2 : a.2 = n := by simpa using List.of_mem_filter ha
    have hb2 : b.2 = n := by simpa using List.of_mem_filter hb
    unfold scoreGe
    omega
  have hsub : List.Sublist (l.filter (fun p => p.2 = n))
      (List.insertionSort scoreGe l) :=
    List.sublist_insertionSort hpair (List.filter_sublist l)
  have hsub2 := hsub.filter (fun p => decide (p.2 = n))
  have hidem : (l.filter (fun p => p.2 = n)).filter (fun p => p.2 = n)
      = l.filter (fun p => p.2 = n) := by
    apply List.filter_eq_self.mpr
    intro a ha
    simpa using List.of_mem_filter ha
  rw [hidem] at hsub2
  have hlen : ((List.insertionSort scoreGe l).filter (fun p => p.2 = n)).length
      = (l.filter (fun p => p.2 = n)).length := by
    rw [← List.countP_eq_length_filter, ← List.countP_eq_length_filter]
    exact (List.perm_insertionSort scoreGe l).countP_eq _
  exact (hsub2.eq_of_length hlen.symm).symm

/-- C2 (counterexample): the claimed equivalence "the output is a permutation
of all table names iff every table scored zero" fails: here the single table
scores 100, yet the output is (trivially) a permutation of all table names.
Only the forward direction of the claimed equivalence is wrong; the code still
returns exactly the positive-scored names here. -/
theorem relevance_permutation_counterexample :
    (analyze_query_relevance "sales" [("df_sales", DataFrame.mk [])]).Perm
        ([("df_sales", DataFrame.mk [])].map Prod.fst)
    ∧ ¬ (∀ p ∈ relevanceScores "sales" [("df_sales", DataFrame.mk [])], p.2 = 0) := by
  constructor
  · have h : analyze_query_relevance "sales" [("df_sales", DataFrame.mk [])]
        = ["df_sales"] := by decide
    rw [h]
    exact List.Perm.refl _
  · intro hz
    have := hz ("df_sales", 100) (by decide)
    simp at this

/-- C2 (amended): if every table scores zero the Relevance Selector returns all
table names in insertion order (hence a permutation of all names); otherwise it
returns exactly the positive-scored names, in an order that is sorted by
descending score with ties keeping the original insertion order.  (When every
table scores positive this list is also a permutation of all names, so being a
permutation is not exclusive to the all-zero case.) -/
theorem analyze_query_relevance_spec (query : String)
    (tables : List (String × DataFrame)) :
    ((∀ p ∈ relevanceScores query tables, p.2 = 0) →
      analyze_query_relevance query tables = tables.map Prod.fst)
    ∧ ((∃ p ∈ relevanceScores query tables, 0 < p.2) →
      ∃ ranked : List (String × Nat),
        analyze_query_relevance query tables = ranked.map Prod.fst
        ∧ ranked.Perm ((relevanceScores query tables).filter (fun p => 0 < p.2))
        ∧ ranked.Pairwise scoreGe
        ∧ ∀ n : Nat, 0 < n →
            ranked.filter (fun p => p.2 = n)
              = (relevanceScores query tables).filter (fun p => p.2 = n)) := by
  constructor
  · intro hz
    have hfil : (List.insertionSort scoreGe (relevanceScores query tables)).filter
        (fun p => 0 < p.2) = [] := by
      refine List.filter_eq_nil_iff.mpr ?_
      intro p hp
      have hp' : p ∈ relevanceScores query tables := by
        simpa using hp
      simp [hz p hp']
    unfold analyze_query_relevance
    simp [hfil]
  · rintro ⟨p0, hp0, hpos⟩
    have hmem : p0 ∈ (List.insertionSort scoreGe
        (relevanceScores query tables)).filter (fun p => 0 < p.2) := by
      refine List.mem_filter.mpr ⟨by simpa using hp0, by simpa using hpos⟩
    refine ⟨(List.insertionSort scoreGe (relevanceScores query tables)).filter
        (fun p => 0 < p.2), ?_, ?_, ?_, ?_⟩
    · have hne : ((List.insertionSort scoreGe
          (relevanceScores query tables)).filter
            (fun p => 0 < p.2)).map Prod.fst ≠ [] := by
        simp only [ne_eq, List.map_eq_nil_iff]
        exact List.ne_nil_of_mem hmem
      unfold analyze_query_relevance
      have hbe : (((List.insertionSort scoreGe
          (relevanceScores query tables)).filter
            (fun p => 0 < p.2)).map Prod.fst).isEmpty = false := by
        simpa [List.isEmpty_iff] using hne
      simp [hbe]
    · exact (List.perm_insertionSort scoreGe _).filter _
    · exact List.Pairwise.filter _ (List.sorted_insertionSort scoreGe _)
    · intro n hn
      rw [List.filter_filter]
      have hcongr : (List.insertionSort scoreGe (relevanceScores query tables)).filter
          (fun a => decide (a.2 = n) && decide (0 < a.2))
          = (List.insertionSort scoreGe (relevanceScores query tables)).filter
            (fun a => a.2 = n) := by
        refine List.filter_congr ?_
        intro a _
        by_cases h : a.2 = n
        · simp [h, hn]
        · simp [h]
      rw [hcongr]
      exact filter_score_insertionSort _ n

theorem analyze_query_relevance_spec_witness :
    analyze_query_relevance "qqq" [("df_a", DataFrame.mk [])] = ["df_a"]
    ∧ ∃ ranked : List (String × Nat),
        analyze_query_relevance "sales" [("df_sales", DataFrame.mk [])]
          = ranked.map Prod.fst
        ∧ ranked.Perm ((relevanceScores "sales"
            [("df_sales", DataFrame.mk [])]).filter (fun p => 0 < p.2))
        ∧ ranked.Pairwise scoreGe
        ∧ ∀ n : Nat, 0 < n →
            ranked.filter (fun p => p.2 = n)
              = (relevanceScores "sales"
                  [("df_sales", DataFrame.mk [])]).filter (fun p => p.2 = n) :=
  ⟨(analyze_query_relevance_spec "qqq" [("df_a", DataFrame.mk [])]).1 (by decide),
   (analyze_query_relevance_spec "sales" [("df_sales", DataFrame.mk [])]).2
     ⟨("df_sales", 100), by decide, by decide⟩⟩

end SmartCsv
